import Mathlib

/-!
Verification development for the JWT analysis backend (LFbackend).

The repository implements a three-stage JWT analysis pipeline:
a lexer (app/analyzers/lexer.py), a recursive-descent recognizer
(app/analyzers/parser.py), a semantic claim validator
(app/analyzers/semantic.py), a Base64URL codec (app/utils/base64url.py),
a decoding service (app/services/jwt_service.py), and an orchestrating
route (app/routes/jwt_routes.py).

Python strings are modelled as lists of characters (`Str`), Python dicts
produced by the JSON codec as ordered association lists without duplicate
keys, byte strings as lists of natural numbers below 256, and the string
diagnostics accumulated by each stage as structured inductive values
carrying exactly the data interpolated into the corresponding Python
message.  The wall clock read by the semantic stage is passed in as an
explicit integer `now`.
-/

/-- Python `str` is modelled as a list of characters. -/
abbrev Str := List Char

/-- Python `input.split('.')` for a one-character separator: splitting on
every occurrence of the dot, keeping empty pieces, so that the result is
always non-empty. -/
def splitDot : Str → List Str
  | [] => [[]]
  | c :: rest =>
    match splitDot rest with
    | [] => [[]]
    | p :: ps => if c = '.' then [] :: p :: ps else (c :: p) :: ps

/-! ## Lexer (app/analyzers/lexer.py) -/

/-- Token kinds produced by the lexer (`TokenType` in lexer.py). -/
inductive TokenType where
  | HEADER
  | PAYLOAD
  | SIGNATURE
  | DOT
  | INVALID
  | EOF
deriving DecidableEq, Repr

/-- A lexical token: kind, text and 0-based start offset (`Token` in
lexer.py).  The offset is an integer because the synthesized end-of-input
token used by the recognizer carries position -1. -/
structure Token where
  type : TokenType
  value : Str
  position : Int
deriving DecidableEq, Repr

/-- The 64-symbol Base64URL alphabet, as the explicit set literal
`ALPHABET` of lexer.py. -/
def ALPHABET : List Char :=
  "ABCDEFGHIJKLMNOPQRSTUVWXYZabcdefghijklmnopqrstuvwxyz0123456789_-".toList

/-- One character of the class `[A-Za-z0-9_-]` of the regular expression
`BASE64URL_PATTERN` in lexer.py. -/
def isB64Char (c : Char) : Bool :=
  ('A' ≤ c && c ≤ 'Z') || ('a' ≤ c && c ≤ 'z') || ('0' ≤ c && c ≤ '9') ||
    c == '_' || c == '-'

/-- `JWTLexer._is_valid_base64url`: the text is non-empty and
`re.match` of the anchored pattern succeeds.  Python's `$` anchor
matches at the end of the string or just before one trailing newline,
so the pattern accepts a non-empty alphabet run either alone or
followed by a single final newline character. -/
def is_valid_base64url (t : Str) : Bool :=
  !t.isEmpty &&
    (t.all isB64Char ||
      (t.getLast? == some '\n' && !t.dropLast.isEmpty && t.dropLast.all isB64Char))

/-- `JWTLexer._find_invalid_chars`: the characters of the text outside
the alphabet, deduplicated (Python renders them as a set; the set is
modelled as the deduplicated list of offenders in first-occurrence
order). -/
def find_invalid_chars (t : Str) : List Char :=
  (t.filter (fun c => !(ALPHABET.contains c))).dedup

/-- Structured forms of the diagnostic strings appended by
`JWTLexer.tokenize`, carrying exactly the data interpolated into each
message. -/
inductive LexError where
  /-- "JWT incompleto: se esperaban 3 partes, se encontraron N" -/
  | incomplete (expected found : Nat)
  /-- "JWT con formato invalido: se encontraron N partes, se esperaban 3" -/
  | tooManyParts (found expected : Nat)
  /-- "SEGMENT contiene caracteres invalidos en posicion P: {...}" -/
  | invalidSegment (kind : TokenType) (position : Int) (invalidChars : List Char)
deriving DecidableEq, Repr

/-- The per-segment classification repeated three times inside
`JWTLexer.tokenize`: a valid part becomes a token of the requested kind,
an invalid part becomes an INVALID token together with one diagnostic
naming the segment kind, the start offset and the offending character
set. -/
def classifySegment (kind : TokenType) (part : Str) (pos : Int) :
    Token × List LexError :=
  if is_valid_base64url part then
    (⟨kind, part, pos⟩, [])
  else
    (⟨TokenType.INVALID, part, pos⟩,
      [LexError.invalidSegment kind pos (find_invalid_chars part)])

/-- `JWTLexer.tokenize`.  Splits the input on dots; fewer than 3 parts is
a hard stop with a single diagnostic and no tokens; more than 3 parts
adds a part-count diagnostic to the error list but scanning continues on
parts 0, 1 and 2.  Offsets accumulate part lengths plus one per
delimiter, exactly as `current_pos` does in the source. -/
def tokenize (input : Str) : List Token × List LexError :=
  let parts := splitDot input
  if parts.length < 3 then
    ([], [LexError.incomplete 3 parts.length])
  else
    let countErrs :=
      if parts.length > 3 then [LexError.tooManyParts parts.length 3] else []
    let p0 := parts.getD 0 []
    let p1 := parts.getD 1 []
    let p2 := parts.getD 2 []
    let r0 := classifySegment TokenType.HEADER p0 0
    let dot1pos : Int := p0.length
    let r1 := classifySegment TokenType.PAYLOAD p1 (dot1pos + 1)
    let dot2pos : Int := dot1pos + 1 + p1.length
    let r2 := classifySegment TokenType.SIGNATURE p2 (dot2pos + 1)
    let endPos : Int := dot2pos + 1 + p2.length
    ([r0.1, ⟨TokenType.DOT, ['.'], dot1pos⟩, r1.1, ⟨TokenType.DOT, ['.'], dot2pos⟩,
      r2.1, ⟨TokenType.EOF, [], endPos⟩],
      countErrs ++ r0.2 ++ r1.2 ++ r2.2)

/-- The lexical stage report assembled by `JWTLexer.analyze` (the static
alphabet metadata and length statistics are introspection-only and are
not modelled). -/
structure LexReport where
  success : Bool
  tokens : List Token
  token_count : Nat
  errors : List LexError
deriving DecidableEq, Repr

/-- `JWTLexer.analyze`: runs `tokenize` and reports success iff the
error list is empty. -/
def lexer_analyze (input : Str) : LexReport :=
  let r := tokenize input
  { success := r.2.isEmpty
    tokens := r.1
    token_count := r.1.length
    errors := r.2 }

/-! ## Recursive-descent recognizer (app/analyzers/parser.py) -/

/-- A derivation-tree node (`ParseNode` in parser.py): a grammar symbol,
a terminal value (empty for non-terminals) and ordered children. -/
inductive ParseNode where
  | node (symbol : String) (value : Str) (children : List ParseNode)
deriving Repr

/-- Structured forms of the syntax diagnostics appended by `JWTParser`,
carrying the data interpolated into each message. -/
inductive ParseErr where
  /-- "Error sintactico en posicion P: se esperaba X, se encontro Y" -/
  | expectedFound (position : Int) (expected found : TokenType)
  /-- "Falta el primer separador despues del HEADER" -/
  | missingFirstDot
  /-- "Falta el segundo separador despues del PAYLOAD" -/
  | missingSecondDot
  /-- "SEGMENT invalido en posicion P: contiene caracteres no Base64URL" -/
  | invalidSegmentAt (which : TokenType) (position : Int)
  /-- "Se esperaba SEGMENT, se encontro Y" -/
  | wrongSegment (which : TokenType) (found : TokenType)
  /-- "Se encontraron caracteres adicionales despues del JWT valido" -/
  | trailingContent
deriving DecidableEq, Repr

/-- Mutable recognizer state: token sequence, cursor, accumulated
errors. -/
structure PState where
  tokens : List Token
  current : Nat
  errors : List ParseErr
deriving Repr

/-- The synthesized end-of-input token returned by
`JWTParser._current_token` past the end of the sequence. -/
def eofFallback : Token := ⟨TokenType.EOF, [], -1⟩

/-- `JWTParser._current_token`. -/
def currentToken (st : PState) : Token :=
  st.tokens.getD st.current eofFallback

/-- `JWTParser._consume`: on a kind mismatch records a positioned error
and does not advance; otherwise advances the cursor. -/
def consume (st : PState) (expected : TokenType) : Option Token × PState :=
  let t := currentToken st
  if t.type ≠ expected then
    (none,
      { st with errors := st.errors ++ [ParseErr.expectedFound t.position expected t.type] })
  else
    (some t, { st with current := st.current + 1 })

/-- The common body of `JWTParser._parse_header`, `_parse_payload` and
`_parse_signature` (the three methods are textually identical up to the
segment kind and node symbol): an INVALID token is a distinct error and
the cursor still advances past it; a wrong kind is an error without
advancing; otherwise a segment node with a single terminal
BASE64URL_STRING leaf is produced. -/
def parseSegment (which : TokenType) (sym : String) (st : PState) :
    Option ParseNode × PState :=
  let t := currentToken st
  if t.type = TokenType.INVALID then
    (none,
      { st with
          errors := st.errors ++ [ParseErr.invalidSegmentAt which t.position]
          current := st.current + 1 })
  else if t.type ≠ which then
    (none, { st with errors := st.errors ++ [ParseErr.wrongSegment which t.type] })
  else
    (some (ParseNode.node sym [] [ParseNode.node "BASE64URL_STRING" t.value []]),
      { st with current := st.current + 1 })

/-- `JWTParser._parse_jwt`: the start production
JWT -> HEADER . PAYLOAD . SIGNATURE followed by the end-of-input check;
every failing step aborts the production and propagates no tree. -/
def parse_jwt (st : PState) : Option ParseNode × PState :=
  match parseSegment TokenType.HEADER "HEADER" st with
  | (none, st1) => (none, st1)
  | (some hn, st1) =>
    match consume st1 TokenType.DOT with
    | (none, st2) => (none, { st2 with errors := st2.errors ++ [ParseErr.missingFirstDot] })
    | (some _, st2) =>
      match parseSegment TokenType.PAYLOAD "PAYLOAD" st2 with
      | (none, st3) => (none, st3)
      | (some pn, st3) =>
        match consume st3 TokenType.DOT with
        | (none, st4) => (none, { st4 with errors := st4.errors ++ [ParseErr.missingSecondDot] })
        | (some _, st4) =>
          match parseSegment TokenType.SIGNATURE "SIGNATURE" st4 with
          | (none, st5) => (none, st5)
          | (some sn, st5) =>
            match consume st5 TokenType.EOF with
            | (none, st6) => (none, { st6 with errors := st6.errors ++ [ParseErr.trailingContent] })
            | (some _, st6) =>
              (some (ParseNode.node "JWT" []
                  [hn, ParseNode.node "DOT" ['.'] [], pn,
                    ParseNode.node "DOT" ['.'] [], sn]), st6)

/-- `JWTParser.parse`: runs the start production from cursor 0 with an
empty error list; success iff no error was recorded and a root node was
produced. -/
def parse (tokens : List Token) : Option ParseNode × List ParseErr × Bool :=
  let r := parse_jwt { tokens := tokens, current := 0, errors := [] }
  (r.1, r.2.errors, r.2.errors.isEmpty && r.1.isSome)

/-- The syntactic stage report assembled by `JWTParser.analyze` (the
static grammar description is introspection-only and not modelled). -/
structure SynReport where
  success : Bool
  tree : Option ParseNode
  errors : List ParseErr
  tokens_consumed : Nat
deriving Repr

/-- `JWTParser.analyze`. -/
def parser_analyze (tokens : List Token) : SynReport :=
  let r := parse_jwt { tokens := tokens, current := 0, errors := [] }
  { success := r.2.errors.isEmpty && r.1.isSome
    tree := r.1
    errors := r.2.errors
    tokens_consumed := r.2.current }

/-! ## Base64URL codec (app/utils/base64url.py)

The repository delegates to the standard urlsafe Base64 primitive; that
external codec is modelled here by the standard algorithm: bytes are
packed three at a time into four sextets rendered through the urlsafe
alphabet, with terminal `=` padding, and decoding reverses the packing
four characters at a time, rejecting malformed input. -/

/-- The urlsafe Base64 alphabet, in encoding order. -/
def B64_ALPHABET : List Char :=
  "ABCDEFGHIJKLMNOPQRSTUVWXYZabcdefghijklmnopqrstuvwxyz0123456789-_".toList

/-- The character encoding a sextet. -/
def sextetToChar (n : Nat) : Char := B64_ALPHABET.getD n 'A'

/-- The sextet encoded by a character, if any. -/
def charToSextet (c : Char) : Option Nat := B64_ALPHABET.findIdx? (· == c)

/-- Standard Base64 packing with `=` padding: three bytes become four
characters; a final group of one or two bytes becomes two or three
characters followed by padding. -/
def b64EncodeChunks : List Nat → List Char
  | [] => []
  | [b1] => [sextetToChar (b1 / 4), sextetToChar (b1 % 4 * 16), '=', '=']
  | [b1, b2] =>
      [sextetToChar (b1 / 4), sextetToChar (b1 % 4 * 16 + b2 / 16),
        sextetToChar (b2 % 16 * 4), '=']
  | b1 :: b2 :: b3 :: rest =>
      sextetToChar (b1 / 4) :: sextetToChar (b1 % 4 * 16 + b2 / 16) ::
        sextetToChar (b2 % 16 * 4 + b3 / 64) :: sextetToChar (b3 % 64) ::
        b64EncodeChunks rest

/-- Standard Base64 unpacking of a padded character stream, four
characters at a time; fails on a character outside the alphabet or on a
length that is not a multiple of four. -/
def b64DecodeChunks : List Char → Option (List Nat)
  | [] => some []
  | c1 :: c2 :: c3 :: c4 :: rest =>
    if rest = [] ∧ c3 = '=' ∧ c4 = '=' then do
      let s1 ← charToSextet c1
      let s2 ← charToSextet c2
      pure [s1 * 4 + s2 / 16]
    else if rest = [] ∧ c4 = '=' then do
      let s1 ← charToSextet c1
      let s2 ← charToSextet c2
      let s3 ← charToSextet c3
      pure [s1 * 4 + s2 / 16, s2 % 16 * 16 + s3 / 4]
    else do
      let s1 ← charToSextet c1
      let s2 ← charToSextet c2
      let s3 ← charToSextet c3
      let s4 ← charToSextet c4
      let r ← b64DecodeChunks rest
      pure ((s1 * 4 + s2 / 16) :: (s2 % 16 * 16 + s3 / 4) :: (s3 % 4 * 64 + s4) :: r)
  | _ => none

/-- Removal of all trailing `=` characters (`.rstrip(b'=')` in
base64url.py). -/
def rstripPad (cs : List Char) : List Char :=
  (cs.reverse.dropWhile (fun c => c == '=')).reverse

/-- `base64url_encode`: standard urlsafe encoding with the `=` padding
stripped. -/
def base64url_encode (bytes : List Nat) : Str :=
  rstripPad (b64EncodeChunks bytes)

/-- The re-padding performed by `base64url_decode`: if the length is not
a multiple of 4, append `=` up to the next multiple of 4. -/
def padTo4 (s : Str) : List Char :=
  let rem := s.length % 4
  if rem = 0 then s else s ++ List.replicate (4 - rem) '='

/-- `base64url_decode`: re-pad to a multiple of 4 with `=`, then decode;
`none` models the raised decoding exception. -/
def base64url_decode (s : Str) : Option (List Nat) :=
  b64DecodeChunks (padTo4 s)

/-! ## JSON values (external JSON codec)

The JSON codec consumed by jwt_service.py is external to the repository;
decoded values are modelled by a closed variant type and `json.loads` by
a recursive-descent reader over the decoded bytes.  Python `bool` is a
distinct constructor, but note that Python treats booleans as instances
of `int`, which the semantic checks below reproduce.  Fractional and
exponent number forms, string escapes and non-ASCII bytes are not
modelled (no claim depends on them). -/

/-- A decoded JSON value. -/
inductive JValue where
  | jnull
  | jbool (b : Bool)
  | jint (n : Int)
  | jstr (s : Str)
  | jarr (elems : List JValue)
  | jobj (fields : List (Str × JValue))
deriving Repr

/-- Python dict insertion `d[k] = v`: an existing key keeps its position
and receives the new value, a new key is appended. -/
def dictInsert (m : List (Str × JValue)) (k : Str) (v : JValue) :
    List (Str × JValue) :=
  match m with
  | [] => [(k, v)]
  | (k2, v2) :: rest =>
      if k2 = k then (k2, v) :: rest else (k2, v2) :: dictInsert rest k v

/-- ASCII decimal digit byte. -/
def isDigitByte (b : Nat) : Bool := 48 ≤ b && b ≤ 57

/-- JSON insignificant whitespace (space, tab, newline, carriage
return). -/
def skipWs (bs : List Nat) : List Nat :=
  bs.dropWhile (fun b => b == 32 || b == 9 || b == 10 || b == 13)

/-- Reads a string body up to the closing quote; escapes and non-ASCII
bytes are not modelled. -/
def parseStringBody : List Nat → Option (Str × List Nat)
  | [] => none
  | b :: rest =>
    if b == 34 then some ([], rest)
    else if b == 92 || b < 32 || 127 ≤ b then none
    else
      match parseStringBody rest with
      | some (s, r) => some (Char.ofNat b :: s, r)
      | none => none

/-- Splits a leading run of digit bytes from the rest. -/
def takeDigits (bs : List Nat) : List Nat × List Nat :=
  (bs.takeWhile isDigitByte, bs.dropWhile isDigitByte)

/-- Value of a digit run. -/
def digitsToNat (ds : List Nat) : Nat :=
  ds.foldl (fun acc d => acc * 10 + (d - 48)) 0

/-- True when the byte stream continues with a fractional or exponent
part, which this model rejects. -/
def nextIsNumCont (bs : List Nat) : Bool :=
  match bs with
  | b :: _ => b == 46 || b == 101 || b == 69
  | [] => false

mutual

/-- Fuel-bounded JSON value reader. -/
def parseJValueFuel : Nat → List Nat → Option (JValue × List Nat)
  | 0, _ => none
  | Nat.succ fuel, bs =>
    match skipWs bs with
    | 110 :: 117 :: 108 :: 108 :: rest => some (JValue.jnull, rest)
    | 116 :: 114 :: 117 :: 101 :: rest => some (JValue.jbool true, rest)
    | 102 :: 97 :: 108 :: 115 :: 101 :: rest => some (JValue.jbool false, rest)
    | 34 :: rest =>
      (match parseStringBody rest with
       | some (s, r) => some (JValue.jstr s, r)
       | none => none)
    | 91 :: rest =>
      (match skipWs rest with
       | 93 :: r2 => some (JValue.jarr [], r2)
       | _ => parseArrayRest fuel rest [])
    | 123 :: rest =>
      (match skipWs rest with
       | 125 :: r2 => some (JValue.jobj [], r2)
       | _ => parseObjRest fuel rest [])
    | 45 :: rest =>
      (match takeDigits rest with
       | ([], _) => none
       | (ds, r) =>
         if nextIsNumCont r then none
         else some (JValue.jint (-(digitsToNat ds : Int)), r))
    | b :: rest =>
      if isDigitByte b then
        (match takeDigits (b :: rest) with
         | (ds, r) =>
           if nextIsNumCont r then none
           else some (JValue.jint (digitsToNat ds : Int), r))
      else none
    | [] => none

/-- Comma-separated array elements up to the closing bracket. -/
def parseArrayRest : Nat → List Nat → List JValue → Option (JValue × List Nat)
  | 0, _, _ => none
  | Nat.succ fuel, bs, acc =>
    match parseJValueFuel fuel bs with
    | none => none
    | some (v, r) =>
      match skipWs r with
      | 44 :: r2 => parseArrayRest fuel r2 (acc ++ [v])
      | 93 :: r2 => some (JValue.jarr (acc ++ [v]), r2)
      | _ => none

/-- Comma-separated object members up to the closing brace, with dict
insertion semantics for repeated keys. -/
def parseObjRest : Nat → List Nat → List (Str × JValue) → Option (JValue × List Nat)
  | 0, _, _ => none
  | Nat.succ fuel, bs, acc =>
    match skipWs bs with
    | 34 :: r =>
      (match parseStringBody r with
       | none => none
       | some (k, r2) =>
         match skipWs r2 with
         | 58 :: r3 =>
           (match parseJValueFuel fuel r3 with
            | none => none
            | some (v, r4) =>
              match skipWs r4 with
              | 44 :: r5 => parseObjRest fuel r5 (dictInsert acc k v)
              | 125 :: r5 => some (JValue.jobj (dictInsert acc k v), r5)
              | _ => none)
         | _ => none)
    | _ => none

end

/-- `json.loads` over decoded bytes: one value, then only whitespace. -/
def parseJson (bs : List Nat) : Option JValue :=
  match parseJValueFuel (2 * bs.length + 2) bs with
  | some (v, rest) => if (skipWs rest).isEmpty then some v else none
  | none => none

/-! ## Semantic analyzer (app/analyzers/semantic.py)

The header and payload arguments are the Python dicts produced by the
JSON codec, modelled as ordered association lists (`JMap`).  The symbol
table built by `_build_symbol_table` records introspection data only and
never contributes diagnostics, so it is not modelled.  The wall clock
`datetime.now(timezone.utc).timestamp()` is passed in as `now`. -/

/-- A decoded JSON object, as handed to `JWTSemanticAnalyzer`. -/
abbrev JMap := List (Str × JValue)

/-- Python dict key lookup over the association-list model. -/
def lookupKey (m : JMap) (k : Str) : Option JValue :=
  match m with
  | [] => none
  | (k2, v) :: rest => if k2 = k then some v else lookupKey rest k

/-- The claim keys used by the semantic checks. -/
def kalg : Str := "alg".toList

/-- The `typ` header key. -/
def ktyp : Str := "typ".toList

/-- The `exp` payload key. -/
def kexp : Str := "exp".toList

/-- The `nbf` payload key. -/
def knbf : Str := "nbf".toList

/-- The `iat` payload key. -/
def kiat : Str := "iat".toList

/-- The fixed algorithm allow-list of `REQUIRED_HEADER_FIELDS["alg"]`. -/
def ALLOWED_ALGS : List Str :=
  ["HS256".toList, "HS384".toList, "HS512".toList,
   "RS256".toList, "RS384".toList, "RS512".toList,
   "ES256".toList, "ES384".toList, "ES512".toList, "none".toList]

/-- Python `value == "JWT"`: true only for the string value JWT
(equality between a non-string and a string is false). -/
def isJWTString : JValue → Bool
  | JValue.jstr s => s = "JWT".toList
  | _ => false

/-- Python `alg in allowed_algs` for the string allow-list: a non-string
value is never a member. -/
def algInAllowList : JValue → Bool
  | JValue.jstr s => ALLOWED_ALGS.contains s
  | _ => false

/-- Python `isinstance(v, str)`. -/
def pyIsStr : JValue → Bool
  | JValue.jstr _ => true
  | _ => false

/-- Python `isinstance(v, int)`.  Python booleans are instances of
`int`, hence the second case. -/
def pyIsInt : JValue → Bool
  | JValue.jint _ => true
  | JValue.jbool _ => true
  | _ => false

/-- Python `isinstance(v, (str, list))` for the `aud` claim. -/
def pyIsStrOrList : JValue → Bool
  | JValue.jstr _ => true
  | JValue.jarr _ => true
  | _ => false

/-- The numeric value used when a Python int instance is compared
(booleans compare as 0 and 1). -/
def toInt : JValue → Int
  | JValue.jint n => n
  | JValue.jbool b => if b then 1 else 0
  | _ => 0

/-- Python `type(v).__name__`, as interpolated into type-mismatch
messages. -/
def typeName : JValue → String
  | JValue.jnull => "NoneType"
  | JValue.jbool _ => "bool"
  | JValue.jint _ => "int"
  | JValue.jstr _ => "str"
  | JValue.jarr _ => "list"
  | JValue.jobj _ => "dict"

/-- Structured forms of the error strings appended to `self.errors` by
the four validation passes, carrying the data interpolated into each
message.  Values shown in temporal messages are recorded through their
numeric comparison value. -/
inductive SemErr where
  /-- "Campo obligatorio alg faltante en header" -/
  | missingAlg
  /-- "Algoritmo A no reconocido. Algoritmos validos: [...]" -/
  | unknownAlg (alg : JValue)
  /-- payload pass: "Claim C tiene tipo incorrecto: T, se esperaba ..." -/
  | claimTypeMismatch (claim : Str) (actualType : String)
  /-- types pass: "Header.K tiene tipo incorrecto: T, se esperaba str" -/
  | headerFieldType (field : Str) (actualType : String)
  /-- types pass: "Claim temporal C debe ser int, se encontro T" -/
  | temporalTypeInTypes (claim : Str) (actualType : String)
  /-- temporal pass: "Claim exp debe ser un timestamp Unix (int), ..." -/
  | expNotInt (actualType : String)
  /-- temporal pass: "Claim nbf debe ser un timestamp Unix (int), ..." -/
  | nbfNotInt (actualType : String)
  /-- temporal pass: "Claim iat debe ser un timestamp Unix (int), ..." -/
  | iatNotInt (actualType : String)
  /-- "Token expirado: exp=E, now=N" -/
  | tokenExpired (exp now : Int)
  /-- "Token aun no valido: nbf=B, now=N" -/
  | notYetValid (nbf now : Int)
  /-- "Orden temporal invalido: debe cumplirse iat menor o igual nbf
  menor o igual exp, se encontro iat=I, nbf=B, exp=E" -/
  | temporalOrderViolation (iat nbf exp : Int)
deriving Repr

/-- Structured forms of the warning strings appended to
`self.warnings`. -/
inductive SemWarn where
  /-- "Campo typ faltante en header (recomendado: JWT)" -/
  | missingTyp
  /-- "Campo typ tiene valor V, se esperaba JWT" -/
  | wrongTyp (typ : JValue)
  /-- "Payload vacio: no contiene claims" -/
  | emptyPayload
  /-- "Token sin claim exp: no se puede validar expiracion" -/
  | noExpClaim
  /-- "Claim iat esta en el futuro: iat=I, now=N" -/
  | iatInFuture (iat now : Int)
deriving Repr

/-- `JWTSemanticAnalyzer._validate_header`: `typ` issues are warnings
only; a missing `alg` or an `alg` outside the allow-list is an error;
the returned flag is false exactly when an error was appended. -/
def validate_header (header : JMap) : Bool × List SemErr × List SemWarn :=
  let typWarns :=
    match lookupKey header ktyp with
    | none => [SemWarn.missingTyp]
    | some v => if isJWTString v then [] else [SemWarn.wrongTyp v]
  match lookupKey header kalg with
  | none => (false, [SemErr.missingAlg], typWarns)
  | some a =>
    if algInAllowList a then (true, [], typWarns)
    else (false, [SemErr.unknownAlg a], typWarns)

/-- The registered standard payload claims of `STANDARD_CLAIMS`, in
iteration order, with the expected-type check of `_validate_payload`
attached. -/
def STANDARD_CLAIMS : List (Str × (JValue → Bool)) :=
  [("iss".toList, pyIsStr), ("sub".toList, pyIsStr), ("aud".toList, pyIsStrOrList),
   (kexp, pyIsInt), (knbf, pyIsInt), (kiat, pyIsInt), ("jti".toList, pyIsStr)]

/-- `JWTSemanticAnalyzer._validate_payload`: an empty payload is a
warning; each standard claim present with a mismatched runtime type is
an error; the flag is false exactly when an error was appended. -/
def validate_payload (payload : JMap) : Bool × List SemErr × List SemWarn :=
  let warns := if payload.isEmpty then [SemWarn.emptyPayload] else []
  let errs :=
    (STANDARD_CLAIMS.map (fun cl =>
      match lookupKey payload cl.1 with
      | some v => if cl.2 v then [] else [SemErr.claimTypeMismatch cl.1 (typeName v)]
      | none => [])).flatten
  (errs.isEmpty, errs, warns)

/-- `JWTSemanticAnalyzer._validate_types`: header entries whose key is
one of the required header fields (`typ`, `alg`) must be strings; the
temporal payload claims must be int instances. -/
def validate_types (header payload : JMap) : Bool × List SemErr :=
  let headerErrs :=
    (header.map (fun kv =>
      if (kv.1 = ktyp ∨ kv.1 = kalg) ∧ pyIsStr kv.2 = false then
        [SemErr.headerFieldType kv.1 (typeName kv.2)]
      else [])).flatten
  let tempErrs :=
    ([kexp, knbf, kiat].map (fun c =>
      match lookupKey payload c with
      | some v => if pyIsInt v then [] else [SemErr.temporalTypeInTypes c (typeName v)]
      | none => [])).flatten
  ((headerErrs ++ tempErrs).isEmpty, headerErrs ++ tempErrs)

/-- The `exp` block of `_validate_temporal`: a missing claim is a
warning, a non-int is an error, an int in the past is an error. -/
def expCheck (payload : JMap) (now : Int) : List SemErr × List SemWarn :=
  match lookupKey payload kexp with
  | none => ([], [SemWarn.noExpClaim])
  | some v =>
    if pyIsInt v then
      (if toInt v < now then [SemErr.tokenExpired (toInt v) now] else [], [])
    else ([SemErr.expNotInt (typeName v)], [])

/-- The `nbf` block of `_validate_temporal`. -/
def nbfCheck (payload : JMap) (now : Int) : List SemErr :=
  match lookupKey payload knbf with
  | none => []
  | some v =>
    if pyIsInt v then
      (if toInt v > now then [SemErr.notYetValid (toInt v) now] else [])
    else [SemErr.nbfNotInt (typeName v)]

/-- The `iat` block of `_validate_temporal`: an int in the future is a
warning only; only a non-int is an error. -/
def iatCheck (payload : JMap) (now : Int) : List SemErr × List SemWarn :=
  match lookupKey payload kiat with
  | none => ([], [])
  | some v =>
    if pyIsInt v then
      ([], if toInt v > now then [SemWarn.iatInFuture (toInt v) now] else [])
    else ([SemErr.iatNotInt (typeName v)], [])

/-- The ordering block of `_validate_temporal`: when all three temporal
claims are present and are int instances, iat must not exceed nbf and
nbf must not exceed exp. -/
def orderCheck (payload : JMap) : List SemErr :=
  match lookupKey payload kiat, lookupKey payload knbf, lookupKey payload kexp with
  | some vi, some vn, some ve =>
    if pyIsInt vi ∧ pyIsInt vn ∧ pyIsInt ve then
      (if ¬(toInt vi ≤ toInt vn ∧ toInt vn ≤ toInt ve) then
        [SemErr.temporalOrderViolation (toInt vi) (toInt vn) (toInt ve)]
      else [])
    else []
  | _, _, _ => []

/-- `JWTSemanticAnalyzer._validate_temporal`: the four blocks run in
order, appending to the shared error and warning lists; the flag is
false exactly when an error was appended. -/
def validate_temporal (payload : JMap) (now : Int) : Bool × List SemErr × List SemWarn :=
  let e := expCheck payload now
  let n := nbfCheck payload now
  let i := iatCheck payload now
  let o := orderCheck payload
  let errs := e.1 ++ n ++ i.1 ++ o
  (errs.isEmpty, errs, e.2 ++ i.2)

/-- The semantic stage report assembled by `JWTSemanticAnalyzer.analyze`
(the symbol table and claim statistics are introspection-only and not
modelled). -/
structure SemReport where
  success : Bool
  header_valid : Bool
  payload_valid : Bool
  types_valid : Bool
  temporal_valid : Bool
  errors : List SemErr
  warnings : List SemWarn
deriving Repr

/-- `JWTSemanticAnalyzer.analyze`: the four validation passes run in
order on the shared error and warning lists; overall success iff the
accumulated error list is empty. -/
def semantic_analyze (header payload : JMap) (now : Int) : SemReport :=
  let hv := validate_header header
  let pv := validate_payload payload
  let tv := validate_types header payload
  let mv := validate_temporal payload now
  let errors := hv.2.1 ++ pv.2.1 ++ tv.2 ++ mv.2.1
  { success := errors.isEmpty
    header_valid := hv.1
    payload_valid := pv.1
    types_valid := tv.1
    temporal_valid := mv.1
    errors := errors
    warnings := hv.2.2 ++ pv.2.2 ++ mv.2.2 }

/-! ## Decoding service (app/services/jwt_service.py) and orchestrator
(app/routes/jwt_routes.py) -/

/-- Structured forms of the failures raised out of
`JWTService.decode_token_no_verify`. -/
inductive DecErr where
  /-- ValueError "Malformed token: must contain 3 parts separated by a
  dot" -/
  | malformedParts
  /-- the Base64 decoding exception propagating out of
  `base64url_decode` -/
  | base64DecodeFailure
  /-- ValueError "Invalid JSON structure: ..." -/
  | invalidJson
deriving DecidableEq, Repr

/-- The triple returned by `decode_token_no_verify` on success.  The
header and payload are whatever JSON values the segments decode to; the
function performs no check that they are objects. -/
structure Decoded where
  header : JValue
  payload : JValue
  signature_b64url : Str
deriving Repr

/-- `JWTService.decode_token_no_verify`: split on dots, require exactly
3 parts, Base64URL-decode parts 0 and 1, parse both byte strings as
JSON inside one guarded block, and return the values unchecked together
with the raw signature segment. -/
def decode_token_no_verify (token : Str) : Except DecErr Decoded :=
  let parts := splitDot token
  if parts.length ≠ 3 then Except.error DecErr.malformedParts
  else
    match base64url_decode (parts.getD 0 []) with
    | none => Except.error DecErr.base64DecodeFailure
    | some hb =>
      match base64url_decode (parts.getD 1 []) with
      | none => Except.error DecErr.base64DecodeFailure
      | some pb =>
        match parseJson hb, parseJson pb with
        | some h, some p => Except.ok ⟨h, p, parts.getD 2 []⟩
        | _, _ => Except.error DecErr.invalidJson

/-- The outcome of the `/api/jwt/analyze` route: which phases ran and
with what reports.  `lexFail` and `synFail` are the early returns on a
failed stage; `fatal` is the catch-all handler around a decoding
failure; `semCrash` is the AttributeError raised inside the semantic
stage when a decoded header or payload is not a JSON object. -/
inductive AnalyzeResult where
  | lexFail (lexical : LexReport)
  | synFail (lexical : LexReport) (syntactic : SynReport)
  | fatal (lexical : LexReport) (syntactic : SynReport) (err : DecErr)
  | semCrash (lexical : LexReport) (syntactic : SynReport)
  | full (lexical : LexReport) (syntactic : SynReport) (semantic : SemReport)
      (overall_success : Bool)
deriving Repr

/-- `analyze_jwt` in jwt_routes.py: lexical analysis always runs; the
syntactic stage runs only when the lexical stage succeeded; the decode
step and the semantic stage run only when the syntactic stage also
succeeded; the overall flag is the conjunction of the three stage
flags. -/
def analyze_jwt (token : Str) (now : Int) : AnalyzeResult :=
  let lex := lexer_analyze token
  if lex.success = false then AnalyzeResult.lexFail lex
  else
    let syn := parser_analyze lex.tokens
    if syn.success = false then AnalyzeResult.synFail lex syn
    else
      match decode_token_no_verify token with
      | Except.error e => AnalyzeResult.fatal lex syn e
      | Except.ok dec =>
        match dec.header, dec.payload with
        | JValue.jobj hf, JValue.jobj pf =>
          let sem := semantic_analyze hf pf now
          AnalyzeResult.full lex syn sem (lex.success && syn.success && sem.success)
        | _, _ => AnalyzeResult.semCrash lex syn


/-! ## Theorems -/

/-- C2: for every input string that splits on the dot into exactly 3
parts, each part non-empty and matching the Base64URL alphabet regular
expression, `tokenize` reports success (empty error list) and produces
exactly 6 tokens whose kinds, in order, are HEADER, DOT, PAYLOAD, DOT,
SIGNATURE, EOF, carrying the three segment texts at the accumulated
offsets. -/
theorem lexer_valid_three_parts (s a b c : Str)
    (hsplit : splitDot s = [a, b, c])
    (ha : is_valid_base64url a = true)
    (hb : is_valid_base64url b = true)
    (hc : is_valid_base64url c = true) :
    tokenize s =
      ([⟨TokenType.HEADER, a, 0⟩,
        ⟨TokenType.DOT, ['.'], (a.length : Int)⟩,
        ⟨TokenType.PAYLOAD, b, (a.length : Int) + 1⟩,
        ⟨TokenType.DOT, ['.'], (a.length : Int) + 1 + (b.length : Int)⟩,
        ⟨TokenType.SIGNATURE, c, (a.length : Int) + 1 + (b.length : Int) + 1⟩,
        ⟨TokenType.EOF, [],
          (a.length : Int) + 1 + (b.length : Int) + 1 + (c.length : Int)⟩],
       []) ∧
    (lexer_analyze s).success = true := by
  have h1 : tokenize s =
      ([⟨TokenType.HEADER, a, 0⟩,
        ⟨TokenType.DOT, ['.'], (a.length : Int)⟩,
        ⟨TokenType.PAYLOAD, b, (a.length : Int) + 1⟩,
        ⟨TokenType.DOT, ['.'], (a.length : Int) + 1 + (b.length : Int)⟩,
        ⟨TokenType.SIGNATURE, c, (a.length : Int) + 1 + (b.length : Int) + 1⟩,
        ⟨TokenType.EOF, [],
          (a.length : Int) + 1 + (b.length : Int) + 1 + (c.length : Int)⟩],
       []) := by
    simp [tokenize, hsplit, classifySegment, ha, hb, hc]
  exact ⟨h1, by simp [lexer_analyze, h1]⟩

/-- C2 witness: the concrete token x.y.z. -/
theorem lexer_valid_three_parts_witness :
    tokenize "x.y.z".toList =
      ([⟨TokenType.HEADER, ['x'], 0⟩,
        ⟨TokenType.DOT, ['.'], ((['x'] : Str).length : Int)⟩,
        ⟨TokenType.PAYLOAD, ['y'], ((['x'] : Str).length : Int) + 1⟩,
        ⟨TokenType.DOT, ['.'],
          ((['x'] : Str).length : Int) + 1 + ((['y'] : Str).length : Int)⟩,
        ⟨TokenType.SIGNATURE, ['z'],
          ((['x'] : Str).length : Int) + 1 + ((['y'] : Str).length : Int) + 1⟩,
        ⟨TokenType.EOF, [],
          ((['x'] : Str).length : Int) + 1 + ((['y'] : Str).length : Int) + 1 +
            ((['z'] : Str).length : Int)⟩],
       []) ∧
    (lexer_analyze "x.y.z".toList).success = true :=
  lexer_valid_three_parts "x.y.z".toList ['x'] ['y'] ['z']
    (by decide) (by decide) (by decide) (by decide)

/-- C4: for every input string with fewer than 3 dot-separated parts,
the lexer records exactly one incomplete-token diagnostic naming the
expected count 3 and the found count, returns an empty token list, the
lexical stage reports failure, and the orchestrator returns without
invoking the recognizer or the semantic analyzer. -/
theorem lexer_incomplete_hard_stop (s : Str) (now : Int)
    (h : (splitDot s).length < 3) :
    tokenize s = ([], [LexError.incomplete 3 (splitDot s).length]) ∧
    (lexer_analyze s).success = false ∧
    analyze_jwt s now = AnalyzeResult.lexFail (lexer_analyze s) := by
  have h1 : tokenize s = ([], [LexError.incomplete 3 (splitDot s).length]) := by
    simp [tokenize, h]
  refine ⟨h1, ?_, ?_⟩
  · simp [lexer_analyze, h1]
  · simp [analyze_jwt, lexer_analyze, h1]

/-- C4 witness: the two-part input abc.def. -/
theorem lexer_incomplete_hard_stop_witness :
    tokenize "abc.def".toList = ([], [LexError.incomplete 3 (splitDot "abc.def".toList).length]) ∧
    (lexer_analyze "abc.def".toList).success = false ∧
    analyze_jwt "abc.def".toList 0 = AnalyzeResult.lexFail (lexer_analyze "abc.def".toList) :=
  lexer_incomplete_hard_stop "abc.def".toList 0 (by decide)

/-- C7: the recognizer's success flag is true iff no syntax error was
recorded and a root derivation node was produced; a non-empty error list
always implies a false success flag. -/
theorem parser_success_iff (ts : List Token) :
    ((parse ts).2.2 = true ↔ ((parse ts).2.1 = [] ∧ (parse ts).1.isSome = true)) ∧
    ((parse ts).2.1 ≠ [] → (parse ts).2.2 = false) := by
  constructor
  · simp [parse, List.isEmpty_iff]
  · intro h
    simp only [parse] at h ⊢
    simp [List.isEmpty_iff, h]

/-- C7 witness: on the empty token sequence the recognizer records an
error and reports failure. -/
theorem parser_success_iff_witness : (parse []).2.2 = false :=
  (parser_success_iff []).2 (by decide)

/-- C5 counterexample: on the four-part input a.b.c.d all three scanned
segments are alphabet-valid, the only diagnostic recorded is the
part-count one, and yet the lexical stage reports failure — so the
part-count diagnostic is error-level and by itself makes the lexical
success flag false, contrary to the claim. -/
theorem lexer_extra_parts_counterexample :
    (tokenize "a.b.c.d".toList).2 = [LexError.tooManyParts 4 3] ∧
    (∀ t ∈ (tokenize "a.b.c.d".toList).1, t.type ≠ TokenType.INVALID) ∧
    (lexer_analyze "a.b.c.d".toList).success = false := by decide

/-- C5 amended: for every input string with more than 3 dot-separated
parts, the lexer records an error-level part-count diagnostic (appended
to the stage error list, and hence by itself making the lexical stage
success flag false), but still classifies positions 0, 1, 2 as the
header/payload/signature segments — parts beyond index 2 yield no
tokens — and completes scanning, producing the full six-token list
ending in EOF. -/
theorem lexer_extra_parts_amended (s : Str)
    (h : (splitDot s).length > 3) :
    LexError.tooManyParts (splitDot s).length 3 ∈ (tokenize s).2 ∧
    (tokenize s).1 =
      [(classifySegment TokenType.HEADER ((splitDot s).getD 0 []) 0).1,
       ⟨TokenType.DOT, ['.'], (((splitDot s).getD 0 []).length : Int)⟩,
       (classifySegment TokenType.PAYLOAD ((splitDot s).getD 1 [])
         ((((splitDot s).getD 0 []).length : Int) + 1)).1,
       ⟨TokenType.DOT, ['.'],
         (((splitDot s).getD 0 []).length : Int) + 1 + (((splitDot s).getD 1 []).length : Int)⟩,
       (classifySegment TokenType.SIGNATURE ((splitDot s).getD 2 [])
         ((((splitDot s).getD 0 []).length : Int) + 1 +
           (((splitDot s).getD 1 []).length : Int) + 1)).1,
       ⟨TokenType.EOF, [],
         (((splitDot s).getD 0 []).length : Int) + 1 +
           (((splitDot s).getD 1 []).length : Int) + 1 +
           (((splitDot s).getD 2 []).length : Int)⟩] ∧
    (lexer_analyze s).success = false := by
  have h3 : ¬((splitDot s).length < 3) := by omega
  refine ⟨?_, ?_, ?_⟩
  · simp [tokenize, h3, h]
  · simp [tokenize, h3]
  · simp [lexer_analyze, tokenize, h3, h]

/-- C5 amended witness: the four-part input a.b.c.d. -/
theorem lexer_extra_parts_amended_witness :
    LexError.tooManyParts (splitDot "a.b.c.d".toList).length 3 ∈ (tokenize "a.b.c.d".toList).2 ∧
    (tokenize "a.b.c.d".toList).1 =
      [(classifySegment TokenType.HEADER ((splitDot "a.b.c.d".toList).getD 0 []) 0).1,
       ⟨TokenType.DOT, ['.'], (((splitDot "a.b.c.d".toList).getD 0 []).length : Int)⟩,
       (classifySegment TokenType.PAYLOAD ((splitDot "a.b.c.d".toList).getD 1 [])
         ((((splitDot "a.b.c.d".toList).getD 0 []).length : Int) + 1)).1,
       ⟨TokenType.DOT, ['.'],
         (((splitDot "a.b.c.d".toList).getD 0 []).length : Int) + 1 +
           (((splitDot "a.b.c.d".toList).getD 1 []).length : Int)⟩,
       (classifySegment TokenType.SIGNATURE ((splitDot "a.b.c.d".toList).getD 2 [])
         ((((splitDot "a.b.c.d".toList).getD 0 []).length : Int) + 1 +
           (((splitDot "a.b.c.d".toList).getD 1 []).length : Int) + 1)).1,
       ⟨TokenType.EOF, [],
         (((splitDot "a.b.c.d".toList).getD 0 []).length : Int) + 1 +
           (((splitDot "a.b.c.d".toList).getD 1 []).length : Int) + 1 +
           (((splitDot "a.b.c.d".toList).getD 2 []).length : Int)⟩] ∧
    (lexer_analyze "a.b.c.d".toList).success = false :=
  lexer_extra_parts_amended "a.b.c.d".toList (by decide)

/-- C10 amended: for every input string with at least 3 dot-separated
parts the lexer produces exactly 6 tokens ending in an EOF token; each
of the first three parts that fails the regular-expression validity
check (which, through Python's dollar anchor, also accepts an alphabet
run followed by one trailing newline) yields an INVALID token in place
of the HEADER/PAYLOAD/SIGNATURE kind at the same position together with
one diagnostic per failing part naming its deduplicated invalid
character set and its 0-based start offset; an empty part is invalid yet
reports an empty offending character set.  The error list is exactly the
optional part-count diagnostic followed by the per-part diagnostics in
segment order. -/
theorem lexer_invalid_parts_structure (s : Str)
    (h : 3 ≤ (splitDot s).length) :
    (tokenize s).1.length = 6 ∧
    ((tokenize s).1.getD 5 eofFallback).type = TokenType.EOF ∧
    (tokenize s).2 =
      (if (splitDot s).length > 3 then [LexError.tooManyParts (splitDot s).length 3] else []) ++
        (classifySegment TokenType.HEADER ((splitDot s).getD 0 []) 0).2 ++
        (classifySegment TokenType.PAYLOAD ((splitDot s).getD 1 [])
          ((((splitDot s).getD 0 []).length : Int) + 1)).2 ++
        (classifySegment TokenType.SIGNATURE ((splitDot s).getD 2 [])
          ((((splitDot s).getD 0 []).length : Int) + 1 +
            (((splitDot s).getD 1 []).length : Int) + 1)).2 ∧
    (is_valid_base64url ((splitDot s).getD 0 []) = false →
      (tokenize s).1.getD 0 eofFallback =
        ⟨TokenType.INVALID, (splitDot s).getD 0 [], 0⟩ ∧
      LexError.invalidSegment TokenType.HEADER 0
        (find_invalid_chars ((splitDot s).getD 0 [])) ∈ (tokenize s).2) ∧
    (is_valid_base64url ((splitDot s).getD 1 []) = false →
      (tokenize s).1.getD 2 eofFallback =
        ⟨TokenType.INVALID, (splitDot s).getD 1 [],
          (((splitDot s).getD 0 []).length : Int) + 1⟩ ∧
      LexError.invalidSegment TokenType.PAYLOAD
        ((((splitDot s).getD 0 []).length : Int) + 1)
        (find_invalid_chars ((splitDot s).getD 1 [])) ∈ (tokenize s).2) ∧
    (is_valid_base64url ((splitDot s).getD 2 []) = false →
      (tokenize s).1.getD 4 eofFallback =
        ⟨TokenType.INVALID, (splitDot s).getD 2 [],
          (((splitDot s).getD 0 []).length : Int) + 1 +
            (((splitDot s).getD 1 []).length : Int) + 1⟩ ∧
      LexError.invalidSegment TokenType.SIGNATURE
        ((((splitDot s).getD 0 []).length : Int) + 1 +
          (((splitDot s).getD 1 []).length : Int) + 1)
        (find_invalid_chars ((splitDot s).getD 2 [])) ∈ (tokenize s).2) ∧
    is_valid_base64url [] = false ∧ find_invalid_chars [] = [] := by
  have h3 : ¬((splitDot s).length < 3) := by omega
  refine ⟨?_, ?_, ?_, ?_, ?_, ?_, by decide, by decide⟩
  · simp [tokenize, h3]
  · simp [tokenize, h3]
  · simp [tokenize, h3]
  · intro hv
    simp only [List.getD_eq_getElem?_getD] at hv
    constructor
    · simp [tokenize, h3, classifySegment, hv]
    · simp [tokenize, h3, classifySegment, hv]
  · intro hv
    simp only [List.getD_eq_getElem?_getD] at hv
    constructor
    · simp [tokenize, h3, classifySegment, hv]
    · simp [tokenize, h3, classifySegment, hv]
  · intro hv
    simp only [List.getD_eq_getElem?_getD] at hv
    constructor
    · simp [tokenize, h3, classifySegment, hv]
    · simp [tokenize, h3, classifySegment, hv]

/-- C10 witness: the input ..! has an empty header part, an empty
payload part and a signature part with an offending character. -/
theorem lexer_invalid_parts_structure_witness :
    (tokenize "..!".toList).1.length = 6 ∧
    ((tokenize "..!".toList).1.getD 5 eofFallback).type = TokenType.EOF ∧
    (tokenize "..!".toList).2 =
      (if (splitDot "..!".toList).length > 3 then
        [LexError.tooManyParts (splitDot "..!".toList).length 3] else []) ++
        (classifySegment TokenType.HEADER ((splitDot "..!".toList).getD 0 []) 0).2 ++
        (classifySegment TokenType.PAYLOAD ((splitDot "..!".toList).getD 1 [])
          ((((splitDot "..!".toList).getD 0 []).length : Int) + 1)).2 ++
        (classifySegment TokenType.SIGNATURE ((splitDot "..!".toList).getD 2 [])
          ((((splitDot "..!".toList).getD 0 []).length : Int) + 1 +
            (((splitDot "..!".toList).getD 1 []).length : Int) + 1)).2 ∧
    (is_valid_base64url ((splitDot "..!".toList).getD 0 []) = false →
      (tokenize "..!".toList).1.getD 0 eofFallback =
        ⟨TokenType.INVALID, (splitDot "..!".toList).getD 0 [], 0⟩ ∧
      LexError.invalidSegment TokenType.HEADER 0
        (find_invalid_chars ((splitDot "..!".toList).getD 0 [])) ∈ (tokenize "..!".toList).2) ∧
    (is_valid_base64url ((splitDot "..!".toList).getD 1 []) = false →
      (tokenize "..!".toList).1.getD 2 eofFallback =
        ⟨TokenType.INVALID, (splitDot "..!".toList).getD 1 [],
          (((splitDot "..!".toList).getD 0 []).length : Int) + 1⟩ ∧
      LexError.invalidSegment TokenType.PAYLOAD
        ((((splitDot "..!".toList).getD 0 []).length : Int) + 1)
        (find_invalid_chars ((splitDot "..!".toList).getD 1 [])) ∈ (tokenize "..!".toList).2) ∧
    (is_valid_base64url ((splitDot "..!".toList).getD 2 []) = false →
      (tokenize "..!".toList).1.getD 4 eofFallback =
        ⟨TokenType.INVALID, (splitDot "..!".toList).getD 2 [],
          (((splitDot "..!".toList).getD 0 []).length : Int) + 1 +
            (((splitDot "..!".toList).getD 1 []).length : Int) + 1⟩ ∧
      LexError.invalidSegment TokenType.SIGNATURE
        ((((splitDot "..!".toList).getD 0 []).length : Int) + 1 +
          (((splitDot "..!".toList).getD 1 []).length : Int) + 1)
        (find_invalid_chars ((splitDot "..!".toList).getD 2 [])) ∈ (tokenize "..!".toList).2) ∧
    is_valid_base64url [] = false ∧ find_invalid_chars [] = [] :=
  lexer_invalid_parts_structure "..!".toList (by decide)

/-- C8: the semantic header validation records an error when `alg` is
absent and when `alg` is present but outside the allow-list (the error
carrying the offending value, the allow-list being fixed in
`ALLOWED_ALGS`); every error the header validation can record concerns
`alg`, so a missing `typ` or a `typ` other than JWT yields only a
warning and never an error; and the semantic stage's overall success is
true iff the accumulated error list is empty. -/
theorem semantic_header_validation (header payload : JMap) (now : Int) :
    (lookupKey header kalg = none →
      SemErr.missingAlg ∈ (validate_header header).2.1) ∧
    (∀ a, lookupKey header kalg = some a → algInAllowList a = false →
      SemErr.unknownAlg a ∈ (validate_header header).2.1) ∧
    (∀ e ∈ (validate_header header).2.1,
      e = SemErr.missingAlg ∨ ∃ a, e = SemErr.unknownAlg a) ∧
    (lookupKey header ktyp = none →
      SemWarn.missingTyp ∈ (validate_header header).2.2) ∧
    (∀ v, lookupKey header ktyp = some v → isJWTString v = false →
      SemWarn.wrongTyp v ∈ (validate_header header).2.2) ∧
    ((semantic_analyze header payload now).success = true ↔
      (semantic_analyze header payload now).errors = []) := by
  refine ⟨?_, ?_, ?_, ?_, ?_, ?_⟩
  · intro h
    simp [validate_header, h]
  · intro a ha hna
    simp [validate_header, ha, hna]
  · intro e he
    rcases hk : lookupKey header kalg with _ | a
    · simp [validate_header, hk] at he
      exact Or.inl he
    · by_cases hA : algInAllowList a
      · simp [validate_header, hk, hA] at he
      · simp [validate_header, hk, hA] at he
        exact Or.inr ⟨a, he⟩
  · intro h
    rcases hk : lookupKey header kalg with _ | a
    · simp [validate_header, h, hk]
    · by_cases hA : algInAllowList a <;> simp [validate_header, h, hk, hA]
  · intro v hv hnv
    rcases hk : lookupKey header kalg with _ | a
    · simp [validate_header, hv, hnv, hk]
    · by_cases hA : algInAllowList a <;> simp [validate_header, hv, hnv, hk, hA]
  · simp [semantic_analyze, List.isEmpty_iff]

/-- C8 witness: an empty header misses both fields; the header with
algorithm XX999 records the unknown-algorithm error. -/
theorem semantic_header_validation_witness :
    SemErr.missingAlg ∈ (validate_header []).2.1 ∧
    SemWarn.missingTyp ∈ (validate_header []).2.2 ∧
    SemErr.unknownAlg (JValue.jstr "XX999".toList) ∈
      (validate_header [(kalg, JValue.jstr "XX999".toList)]).2.1 :=
  ⟨(semantic_header_validation [] [] 0).1 rfl,
   (semantic_header_validation [] [] 0).2.2.2.1 rfl,
   (semantic_header_validation [(kalg, JValue.jstr "XX999".toList)] [] 0).2.1
     (JValue.jstr "XX999".toList) rfl (by decide)⟩

/-- Every error recorded by the `exp` block of the temporal validation
is an expiry or an exp-type error. -/
theorem expCheck_shape (payload : JMap) (now : Int) :
    ∀ e ∈ (expCheck payload now).1,
      (∃ a b, e = SemErr.tokenExpired a b) ∨ ∃ t, e = SemErr.expNotInt t := by
  intro e he
  unfold expCheck at he
  rcases hk : lookupKey payload kexp with _ | v <;> rw [hk] at he
  · simp at he
  · by_cases hp : pyIsInt v
    · by_cases hlt : toInt v < now
      · simp [hp, hlt] at he
        exact Or.inl ⟨_, _, he⟩
      · simp [hp, hlt] at he
    · simp [hp] at he
      exact Or.inr ⟨_, he⟩

/-- Every error recorded by the `nbf` block of the temporal validation
is a not-yet-valid or an nbf-type error. -/
theorem nbfCheck_shape (payload : JMap) (now : Int) :
    ∀ e ∈ nbfCheck payload now,
      (∃ a b, e = SemErr.notYetValid a b) ∨ ∃ t, e = SemErr.nbfNotInt t := by
  intro e he
  unfold nbfCheck at he
  rcases hk : lookupKey payload knbf with _ | v <;> rw [hk] at he
  · simp at he
  · by_cases hp : pyIsInt v
    · by_cases hgt : toInt v > now
      · simp [hp, hgt] at he
        exact Or.inl ⟨_, _, he⟩
      · simp [hp, hgt] at he
    · simp [hp] at he
      exact Or.inr ⟨_, he⟩

/-- Every error recorded by the ordering block of the temporal
validation is an ordering violation. -/
theorem orderCheck_shape (payload : JMap) :
    ∀ e ∈ orderCheck payload,
      ∃ a b c, e = SemErr.temporalOrderViolation a b c := by
  intro e he
  unfold orderCheck at he
  rcases hi : lookupKey payload kiat with _ | vi <;> rw [hi] at he
  · simp at he
  · rcases hn : lookupKey payload knbf with _ | vn <;> rw [hn] at he
    · simp at he
    · rcases hx : lookupKey payload kexp with _ | ve <;> rw [hx] at he
      · simp at he
      · by_cases hp : pyIsInt vi ∧ pyIsInt vn ∧ pyIsInt ve
        · by_cases hord : toInt vi ≤ toInt vn ∧ toInt vn ≤ toInt ve
          · simp [hp, hord] at he
          · simp [hp, hord] at he
            exact ⟨_, _, _, he⟩
        · simp [hp] at he

/-- C1: the temporal validation, against the clock value `now`: an
integer `exp` in the past records an error; an integer `nbf` in the
future records an error; an integer `iat` in the future records only a
warning — no iat-specific error is recorded; and when all three claims
are present as integers, the ordering error is recorded exactly when
iat less-or-equal nbf less-or-equal exp fails. -/
theorem semantic_temporal_validation (payload : JMap) (now : Int) :
    (∀ e : Int, lookupKey payload kexp = some (JValue.jint e) → e < now →
      SemErr.tokenExpired e now ∈ (validate_temporal payload now).2.1) ∧
    (∀ n : Int, lookupKey payload knbf = some (JValue.jint n) → n > now →
      SemErr.notYetValid n now ∈ (validate_temporal payload now).2.1) ∧
    (∀ i : Int, lookupKey payload kiat = some (JValue.jint i) → i > now →
      SemWarn.iatInFuture i now ∈ (validate_temporal payload now).2.2 ∧
      ∀ t, SemErr.iatNotInt t ∉ (validate_temporal payload now).2.1) ∧
    (∀ i n e : Int,
      lookupKey payload kiat = some (JValue.jint i) →
      lookupKey payload knbf = some (JValue.jint n) →
      lookupKey payload kexp = some (JValue.jint e) →
      (SemErr.temporalOrderViolation i n e ∈ (validate_temporal payload now).2.1 ↔
        ¬(i ≤ n ∧ n ≤ e))) := by
  refine ⟨?_, ?_, ?_, ?_⟩
  · intro e hl he
    simp [validate_temporal, expCheck, hl, pyIsInt, toInt, he]
  · intro n hl hn
    simp [validate_temporal, nbfCheck, hl, pyIsInt, toInt, hn]
  · intro i hl hi
    constructor
    · simp [validate_temporal, iatCheck, hl, pyIsInt, toInt, hi]
    · intro t ht
      simp only [validate_temporal, List.mem_append] at ht
      rcases ht with ((h1 | h2) | h3) | h4
      · rcases expCheck_shape payload now _ h1 with ⟨a, b, hab⟩ | ⟨u, hu⟩ <;> simp_all
      · rcases nbfCheck_shape payload now _ h2 with ⟨a, b, hab⟩ | ⟨u, hu⟩ <;> simp_all
      · simp [iatCheck, hl, pyIsInt] at h3
      · rcases orderCheck_shape payload _ h4 with ⟨a, b, c, habc⟩
        simp_all
  · intro i n e hi hn he
    constructor
    · intro hmem
      simp only [validate_temporal, List.mem_append] at hmem
      rcases hmem with ((h1 | h2) | h3) | h4
      · rcases expCheck_shape payload now _ h1 with ⟨a, b, hab⟩ | ⟨u, hu⟩ <;> simp_all
      · rcases nbfCheck_shape payload now _ h2 with ⟨a, b, hab⟩ | ⟨u, hu⟩ <;> simp_all
      · simp [iatCheck, hi, pyIsInt] at h3
      · by_cases hord : i ≤ n ∧ n ≤ e
        · simp [orderCheck, hi, hn, he, pyIsInt, toInt, hord] at h4
        · exact hord
    · intro hord
      have : SemErr.temporalOrderViolation i n e ∈ orderCheck payload := by
        simp [orderCheck, hi, hn, he, pyIsInt, toInt, hord]
      simp only [validate_temporal, List.mem_append]
      exact Or.inr this

/-- C1 witness: payload iat=300, nbf=260, exp=100 against clock
now=250: expiry error, not-yet-valid error, future-iat warning without
iat error, and the ordering violation. -/
theorem semantic_temporal_validation_witness :
    SemErr.tokenExpired 100 250 ∈
      (validate_temporal
        [(kiat, JValue.jint 300), (knbf, JValue.jint 260), (kexp, JValue.jint 100)] 250).2.1 ∧
    SemErr.notYetValid 260 250 ∈
      (validate_temporal
        [(kiat, JValue.jint 300), (knbf, JValue.jint 260), (kexp, JValue.jint 100)] 250).2.1 ∧
    SemWarn.iatInFuture 300 250 ∈
      (validate_temporal
        [(kiat, JValue.jint 300), (knbf, JValue.jint 260), (kexp, JValue.jint 100)] 250).2.2 ∧
    SemErr.temporalOrderViolation 300 260 100 ∈
      (validate_temporal
        [(kiat, JValue.jint 300), (knbf, JValue.jint 260), (kexp, JValue.jint 100)] 250).2.1 :=
  ⟨(semantic_temporal_validation
      [(kiat, JValue.jint 300), (knbf, JValue.jint 260), (kexp, JValue.jint 100)] 250).1
      100 rfl (by decide),
   (semantic_temporal_validation
      [(kiat, JValue.jint 300), (knbf, JValue.jint 260), (kexp, JValue.jint 100)] 250).2.1
      260 rfl (by decide),
   ((semantic_temporal_validation
      [(kiat, JValue.jint 300), (knbf, JValue.jint 260), (kexp, JValue.jint 100)] 250).2.2.1
      300 rfl (by decide)).1,
   ((semantic_temporal_validation
      [(kiat, JValue.jint 300), (knbf, JValue.jint 260), (kexp, JValue.jint 100)] 250).2.2.2
      300 260 100 rfl rfl rfl).mpr (by decide)⟩

/-- A successful segment production consumed a token of the requested
kind at the cursor, produced the segment node with a single terminal
leaf carrying the token text, advanced the cursor by one and recorded no
error. -/
theorem parseSegment_some {which : TokenType} {sym : String} {st : PState}
    {n : ParseNode} {st' : PState}
    (h : parseSegment which sym st = (some n, st')) :
    (currentToken st).type = which ∧
    n = ParseNode.node sym []
      [ParseNode.node "BASE64URL_STRING" (currentToken st).value []] ∧
    st' = { st with current := st.current + 1 } := by
  unfold parseSegment at h
  simp only [] at h
  split at h
  · simp at h
  · split at h
    · simp at h
    · rename_i hne
      simp only [ne_eq, not_not] at hne
      simp only [Prod.mk.injEq, Option.some.injEq] at h
      exact ⟨hne, h.1.symm, h.2.symm⟩

/-- A successful consume step found a token of the expected kind at the
cursor, advanced the cursor by one and recorded no error. -/
theorem consume_some {st : PState} {expected : TokenType} {t : Token} {st' : PState}
    (h : consume st expected = (some t, st')) :
    (currentToken st).type = expected ∧
    st' = { st with current := st.current + 1 } := by
  unfold consume at h
  simp only [] at h
  split at h
  · simp at h
  · rename_i hne
    simp only [ne_eq, not_not] at hne
    simp only [Prod.mk.injEq, Option.some.injEq] at h
    exact ⟨h.1 ▸ hne, h.2.symm⟩

/-- A successful start production consumed HEADER, DOT, PAYLOAD, DOT,
SIGNATURE at cursor offsets 0 to 4 and built the five-child root in that
order, each segment child holding a single terminal leaf with the
corresponding token text. -/
theorem parse_jwt_some {st : PState} {tr : ParseNode} {st' : PState}
    (h : parse_jwt st = (some tr, st')) :
    (st.tokens.getD st.current eofFallback).type = TokenType.HEADER ∧
    (st.tokens.getD (st.current + 1) eofFallback).type = TokenType.DOT ∧
    (st.tokens.getD (st.current + 2) eofFallback).type = TokenType.PAYLOAD ∧
    (st.tokens.getD (st.current + 3) eofFallback).type = TokenType.DOT ∧
    (st.tokens.getD (st.current + 4) eofFallback).type = TokenType.SIGNATURE ∧
    tr = ParseNode.node "JWT" []
      [ParseNode.node "HEADER" []
         [ParseNode.node "BASE64URL_STRING"
           (st.tokens.getD st.current eofFallback).value []],
       ParseNode.node "DOT" ['.'] [],
       ParseNode.node "PAYLOAD" []
         [ParseNode.node "BASE64URL_STRING"
           (st.tokens.getD (st.current + 2) eofFallback).value []],
       ParseNode.node "DOT" ['.'] [],
       ParseNode.node "SIGNATURE" []
         [ParseNode.node "BASE64URL_STRING"
           (st.tokens.getD (st.current + 4) eofFallback).value []]] := by
  unfold parse_jwt at h
  rcases h1 : parseSegment TokenType.HEADER "HEADER" st with ⟨o1, st1⟩
  rw [h1] at h
  cases o1 with
  | none => simp at h
  | some hn =>
    simp only [] at h
    obtain ⟨hty1, hn_eq, hst1⟩ := parseSegment_some h1
    subst hst1
    rcases h2 : consume { st with current := st.current + 1 } TokenType.DOT with ⟨o2, st2⟩
    rw [h2] at h
    cases o2 with
    | none => simp at h
    | some d1 =>
      simp only [] at h
      obtain ⟨hty2, hst2⟩ := consume_some h2
      subst hst2
      rcases h3 : parseSegment TokenType.PAYLOAD "PAYLOAD"
          { st with current := st.current + 1 + 1 } with ⟨o3, st3⟩
      rw [h3] at h
      cases o3 with
      | none => simp at h
      | some pn =>
        simp only [] at h
        obtain ⟨hty3, hpn_eq, hst3⟩ := parseSegment_some h3
        subst hst3
        rcases h4 : consume { st with current := st.current + 1 + 1 + 1 } TokenType.DOT with ⟨o4, st4⟩
        rw [h4] at h
        cases o4 with
        | none => simp at h
        | some d2 =>
          simp only [] at h
          obtain ⟨hty4, hst4⟩ := consume_some h4
          subst hst4
          rcases h5 : parseSegment TokenType.SIGNATURE "SIGNATURE"
              { st with current := st.current + 1 + 1 + 1 + 1 } with ⟨o5, st5⟩
          rw [h5] at h
          cases o5 with
          | none => simp at h
          | some sn =>
            simp only [] at h
            obtain ⟨hty5, hsn_eq, hst5⟩ := parseSegment_some h5
            subst hst5
            rcases h6 : consume { st with current := st.current + 1 + 1 + 1 + 1 + 1 }
                TokenType.EOF with ⟨o6, st6⟩
            rw [h6] at h
            cases o6 with
            | none => simp at h
            | some eo =>
              simp only [Prod.mk.injEq, Option.some.injEq] at h
              have e1 : st.current + 1 + 1 = st.current + 2 := by omega
              have e2 : st.current + 1 + 1 + 1 = st.current + 3 := by omega
              have e3 : st.current + 1 + 1 + 1 + 1 = st.current + 4 := by omega
              simp only [currentToken] at hty1 hty2 hty3 hty4 hty5 hn_eq hpn_eq hsn_eq
              rw [e1] at hty3 hpn_eq
              rw [e2] at hty4
              rw [e3] at hty5 hsn_eq
              refine ⟨hty1, hty2, hty3, hty4, hty5, ?_⟩
              rw [← h.1, hn_eq, hpn_eq, hsn_eq]

/-- C6: whenever the recognizer reports success, the returned derivation
tree's root is the start symbol JWT with exactly five children in order
HEADER, DOT, PAYLOAD, DOT, SIGNATURE, each segment child holding a
single terminal BASE64URL_STRING leaf carrying the corresponding segment
text from the token sequence. -/
theorem parser_success_tree_shape (ts : List Token)
    (h : (parse ts).2.2 = true) :
    ∃ h0 p0 s0 : Str,
      (parse ts).1 = some (ParseNode.node "JWT" []
        [ParseNode.node "HEADER" [] [ParseNode.node "BASE64URL_STRING" h0 []],
         ParseNode.node "DOT" ['.'] [],
         ParseNode.node "PAYLOAD" [] [ParseNode.node "BASE64URL_STRING" p0 []],
         ParseNode.node "DOT" ['.'] [],
         ParseNode.node "SIGNATURE" [] [ParseNode.node "BASE64URL_STRING" s0 []]]) ∧
      (ts.getD 0 eofFallback).type = TokenType.HEADER ∧
      (ts.getD 0 eofFallback).value = h0 ∧
      (ts.getD 1 eofFallback).type = TokenType.DOT ∧
      (ts.getD 2 eofFallback).type = TokenType.PAYLOAD ∧
      (ts.getD 2 eofFallback).value = p0 ∧
      (ts.getD 3 eofFallback).type = TokenType.DOT ∧
      (ts.getD 4 eofFallback).type = TokenType.SIGNATURE ∧
      (ts.getD 4 eofFallback).value = s0 := by
  rcases hr : parse_jwt { tokens := ts, current := 0, errors := [] } with ⟨otree, stf⟩
  have hsucc : otree.isSome = true := by
    simp only [parse, hr, Bool.and_eq_true] at h
    exact h.2
  rcases otree with _ | tr
  · simp at hsucc
  · obtain ⟨t1, t2, t3, t4, t5, htr⟩ := parse_jwt_some hr
    simp only at t1 t2 t3 t4 t5 htr
    refine ⟨(ts.getD 0 eofFallback).value, (ts.getD 2 eofFallback).value,
      (ts.getD 4 eofFallback).value, ?_, t1, rfl, t2, t3, rfl, t4, t5, rfl⟩
    simp only [parse, hr]
    rw [htr]

/-- C6 witness: the token sequence for a.b.c parses successfully into
the five-child tree. -/
theorem parser_success_tree_shape_witness :
    ∃ h0 p0 s0 : Str,
      (parse [⟨TokenType.HEADER, ['a'], 0⟩, ⟨TokenType.DOT, ['.'], 1⟩,
         ⟨TokenType.PAYLOAD, ['b'], 2⟩, ⟨TokenType.DOT, ['.'], 3⟩,
         ⟨TokenType.SIGNATURE, ['c'], 4⟩, ⟨TokenType.EOF, [], 5⟩]).1 =
        some (ParseNode.node "JWT" []
          [ParseNode.node "HEADER" [] [ParseNode.node "BASE64URL_STRING" h0 []],
           ParseNode.node "DOT" ['.'] [],
           ParseNode.node "PAYLOAD" [] [ParseNode.node "BASE64URL_STRING" p0 []],
           ParseNode.node "DOT" ['.'] [],
           ParseNode.node "SIGNATURE" [] [ParseNode.node "BASE64URL_STRING" s0 []]]) ∧
      (([⟨TokenType.HEADER, ['a'], 0⟩, ⟨TokenType.DOT, ['.'], 1⟩,
         ⟨TokenType.PAYLOAD, ['b'], 2⟩, ⟨TokenType.DOT, ['.'], 3⟩,
         ⟨TokenType.SIGNATURE, ['c'], 4⟩, ⟨TokenType.EOF, [], 5⟩] : List Token).getD 0
           eofFallback).type = TokenType.HEADER ∧
      (([⟨TokenType.HEADER, ['a'], 0⟩, ⟨TokenType.DOT, ['.'], 1⟩,
         ⟨TokenType.PAYLOAD, ['b'], 2⟩, ⟨TokenType.DOT, ['.'], 3⟩,
         ⟨TokenType.SIGNATURE, ['c'], 4⟩, ⟨TokenType.EOF, [], 5⟩] : List Token).getD 0
           eofFallback).value = h0 ∧
      (([⟨TokenType.HEADER, ['a'], 0⟩, ⟨TokenType.DOT, ['.'], 1⟩,
         ⟨TokenType.PAYLOAD, ['b'], 2⟩, ⟨TokenType.DOT, ['.'], 3⟩,
         ⟨TokenType.SIGNATURE, ['c'], 4⟩, ⟨TokenType.EOF, [], 5⟩] : List Token).getD 1
           eofFallback).type = TokenType.DOT ∧
      (([⟨TokenType.HEADER, ['a'], 0⟩, ⟨TokenType.DOT, ['.'], 1⟩,
         ⟨TokenType.PAYLOAD, ['b'], 2⟩, ⟨TokenType.DOT, ['.'], 3⟩,
         ⟨TokenType.SIGNATURE, ['c'], 4⟩, ⟨TokenType.EOF, [], 5⟩] : List Token).getD 2
           eofFallback).type = TokenType.PAYLOAD ∧
      (([⟨TokenType.HEADER, ['a'], 0⟩, ⟨TokenType.DOT, ['.'], 1⟩,
         ⟨TokenType.PAYLOAD, ['b'], 2⟩, ⟨TokenType.DOT, ['.'], 3⟩,
         ⟨TokenType.SIGNATURE, ['c'], 4⟩, ⟨TokenType.EOF, [], 5⟩] : List Token).getD 2
           eofFallback).value = p0 ∧
      (([⟨TokenType.HEADER, ['a'], 0⟩, ⟨TokenType.DOT, ['.'], 1⟩,
         ⟨TokenType.PAYLOAD, ['b'], 2⟩, ⟨TokenType.DOT, ['.'], 3⟩,
         ⟨TokenType.SIGNATURE, ['c'], 4⟩, ⟨TokenType.EOF, [], 5⟩] : List Token).getD 3
           eofFallback).type = TokenType.DOT ∧
      (([⟨TokenType.HEADER, ['a'], 0⟩, ⟨TokenType.DOT, ['.'], 1⟩,
         ⟨TokenType.PAYLOAD, ['b'], 2⟩, ⟨TokenType.DOT, ['.'], 3⟩,
         ⟨TokenType.SIGNATURE, ['c'], 4⟩, ⟨TokenType.EOF, [], 5⟩] : List Token).getD 4
           eofFallback).type = TokenType.SIGNATURE ∧
      (([⟨TokenType.HEADER, ['a'], 0⟩, ⟨TokenType.DOT, ['.'], 1⟩,
         ⟨TokenType.PAYLOAD, ['b'], 2⟩, ⟨TokenType.DOT, ['.'], 3⟩,
         ⟨TokenType.SIGNATURE, ['c'], 4⟩, ⟨TokenType.EOF, [], 5⟩] : List Token).getD 4
           eofFallback).value = s0 :=
  parser_success_tree_shape
    [⟨TokenType.HEADER, ['a'], 0⟩, ⟨TokenType.DOT, ['.'], 1⟩,
     ⟨TokenType.PAYLOAD, ['b'], 2⟩, ⟨TokenType.DOT, ['.'], 3⟩,
     ⟨TokenType.SIGNATURE, ['c'], 4⟩, ⟨TokenType.EOF, [], 5⟩] (by decide)

/-- Decoding a character table entry recovers the sextet. -/
theorem charToSextet_sextetToChar : ∀ n < 64, charToSextet (sextetToChar n) = some n := by
  decide

/-- No sextet encodes to the padding character. -/
theorem sextetToChar_ne_pad (n : Nat) : sextetToChar n ≠ '=' := by
  by_cases h : n < 64
  · exact (by decide : ∀ m, m < 64 → sextetToChar m ≠ '=') n h
  · unfold sextetToChar
    have hlen : B64_ALPHABET.length ≤ n := by
      have h64 : B64_ALPHABET.length = 64 := by decide
      omega
    rw [List.getD_eq_default _ _ hlen]
    decide

/-- Dropping a prefix predicate distributes over append when the first
part does not vanish. -/
theorem dropWhile_append_of_ne {α : Type} (p : α → Bool) (a b : List α)
    (h : List.dropWhile p a ≠ []) :
    List.dropWhile p (a ++ b) = List.dropWhile p a ++ b := by
  induction a with
  | nil => simp at h
  | cons x xs ih =>
    by_cases hp : p x
    · simp only [List.dropWhile, hp, List.cons_append] at h ⊢
      exact ih h
    · simp only [List.dropWhile, hp, List.cons_append]
      rfl

/-- The stripped reverse of a non-empty chunk stream is non-empty: its
first character is a table character, not padding. -/
theorem encode_rstrip_ne_nil : ∀ (rest : List Nat), rest ≠ [] →
    List.dropWhile (fun c => c == '=') (b64EncodeChunks rest).reverse ≠ [] := by
  intro rest hne hall
  rw [List.dropWhile_eq_nil_iff] at hall
  match rest, hne with
  | b1 :: r1, _ =>
    have hmem : sextetToChar (b1 / 4) ∈ (b64EncodeChunks (b1 :: r1)).reverse := by
      rw [List.mem_reverse]
      match r1 with
      | [] => simp [b64EncodeChunks]
      | [b2] => simp [b64EncodeChunks]
      | b2 :: b3 :: r3 => simp [b64EncodeChunks]
    have := hall _ hmem
    simp only [beq_iff_eq] at this
    exact sextetToChar_ne_pad _ this

/-- Stripping trailing padding from a four-character group followed by a
stream that does not strip to nothing keeps the group intact. -/
theorem rstripPad_cons4_append (x y z w : Char) (t : List Char)
    (hne : List.dropWhile (fun c => c == '=') t.reverse ≠ []) :
    rstripPad (x :: y :: z :: w :: t) = [x, y, z, w] ++ rstripPad t := by
  unfold rstripPad
  rw [show (x :: y :: z :: w :: t).reverse = t.reverse ++ [w, z, y, x] by simp]
  rw [dropWhile_append_of_ne _ _ _ hne]
  simp

/-- Re-padding distributes over a leading group of four characters. -/
theorem padTo4_append4 (a u : List Char) (ha : a.length % 4 = 0) :
    padTo4 (a ++ u) = a ++ padTo4 u := by
  unfold padTo4
  simp only []
  have hlen : (a ++ u).length % 4 = u.length % 4 := by
    simp only [List.length_append]
    omega
  rw [hlen]
  by_cases h0 : u.length % 4 = 0
  · simp [h0]
  · simp [h0, List.append_assoc]

/-- Re-padding the stripped encoding restores the padded chunk
stream. -/
theorem b64_pad_strip : ∀ bs : List Nat,
    padTo4 (rstripPad (b64EncodeChunks bs)) = b64EncodeChunks bs
  | [] => by simp [b64EncodeChunks, rstripPad, padTo4]
  | [b1] => by
      have hy : (sextetToChar (b1 % 4 * 16) == '=') = false :=
        beq_eq_false_iff_ne.mpr (sextetToChar_ne_pad _)
      simp [b64EncodeChunks, rstripPad, padTo4, List.dropWhile, hy]
  | [b1, b2] => by
      have hz : (sextetToChar (b2 % 16 * 4) == '=') = false :=
        beq_eq_false_iff_ne.mpr (sextetToChar_ne_pad _)
      simp [b64EncodeChunks, rstripPad, padTo4, List.dropWhile, hz]
  | b1 :: b2 :: b3 :: b4 :: rest => by
      have hw := sextetToChar_ne_pad (b3 % 64)
      have hne := encode_rstrip_ne_nil (b4 :: rest) (by simp)
      have ih := b64_pad_strip (b4 :: rest)
      simp only [b64EncodeChunks]
      rw [rstripPad_cons4_append _ _ _ _ _ hne]
      rw [padTo4_append4 _ _ (by simp)]
      rw [ih]
      rfl
  | [b1, b2, b3] => by
      have hw : (sextetToChar (b3 % 64) == '=') = false :=
        beq_eq_false_iff_ne.mpr (sextetToChar_ne_pad _)
      simp [b64EncodeChunks, rstripPad, padTo4, List.dropWhile, hw]

/-- Decoding the padded chunk stream of a byte sequence recovers the
bytes. -/
theorem b64_chunks_roundtrip : ∀ bs : List Nat, (∀ b ∈ bs, b < 256) →
    b64DecodeChunks (b64EncodeChunks bs) = some bs
  | [], _ => by simp [b64EncodeChunks, b64DecodeChunks]
  | [b1], h => by
      have hb1 : b1 < 256 := h b1 (by simp)
      have e1 := charToSextet_sextetToChar (b1 / 4) (by omega)
      have e2 := charToSextet_sextetToChar (b1 % 4 * 16) (by omega)
      simp [b64EncodeChunks, b64DecodeChunks, e1, e2]
      omega
  | [b1, b2], h => by
      have hb1 : b1 < 256 := h b1 (by simp)
      have hb2 : b2 < 256 := h b2 (by simp)
      have hz := sextetToChar_ne_pad (b2 % 16 * 4)
      have e1 := charToSextet_sextetToChar (b1 / 4) (by omega)
      have e2 := charToSextet_sextetToChar (b1 % 4 * 16 + b2 / 16) (by omega)
      have e3 := charToSextet_sextetToChar (b2 % 16 * 4) (by omega)
      simp [b64EncodeChunks, b64DecodeChunks, hz, e1, e2, e3]
      omega
  | b1 :: b2 :: b3 :: rest, h => by
      have hb1 : b1 < 256 := h b1 (by simp)
      have hb2 : b2 < 256 := h b2 (by simp)
      have hb3 : b3 < 256 := h b3 (by simp)
      have ih := b64_chunks_roundtrip rest (fun b hb => h b (by simp [hb]))
      have hz := sextetToChar_ne_pad (b2 % 16 * 4 + b3 / 64)
      have hw := sextetToChar_ne_pad (b3 % 64)
      have e1 := charToSextet_sextetToChar (b1 / 4) (by omega)
      have e2 := charToSextet_sextetToChar (b1 % 4 * 16 + b2 / 16) (by omega)
      have e3 := charToSextet_sextetToChar (b2 % 16 * 4 + b3 / 64) (by omega)
      have e4 := charToSextet_sextetToChar (b3 % 64) (by omega)
      simp [b64EncodeChunks, b64DecodeChunks, hz, hw, e1, e2, e3, e4, ih]
      omega

/-- No padding character survives in the stripped encoding. -/
theorem encode_no_pad : ∀ bs : List Nat, '=' ∉ base64url_encode bs
  | [] => by simp [base64url_encode, b64EncodeChunks, rstripPad]
  | [b1] => by
      have hxe := (sextetToChar_ne_pad (b1 / 4)).symm
      have hye := (sextetToChar_ne_pad (b1 % 4 * 16)).symm
      have hy : (sextetToChar (b1 % 4 * 16) == '=') = false :=
        beq_eq_false_iff_ne.mpr (sextetToChar_ne_pad _)
      simp [base64url_encode, b64EncodeChunks, rstripPad, List.dropWhile,
        hy, hxe, hye]
  | [b1, b2] => by
      have hxe := (sextetToChar_ne_pad (b1 / 4)).symm
      have hye := (sextetToChar_ne_pad (b1 % 4 * 16 + b2 / 16)).symm
      have hze := (sextetToChar_ne_pad (b2 % 16 * 4)).symm
      have hz : (sextetToChar (b2 % 16 * 4) == '=') = false :=
        beq_eq_false_iff_ne.mpr (sextetToChar_ne_pad _)
      simp [base64url_encode, b64EncodeChunks, rstripPad, List.dropWhile,
        hz, hxe, hye, hze]
  | b1 :: b2 :: b3 :: b4 :: rest => by
      have hx := (sextetToChar_ne_pad (b1 / 4)).symm
      have hy := (sextetToChar_ne_pad (b1 % 4 * 16 + b2 / 16)).symm
      have hz := (sextetToChar_ne_pad (b2 % 16 * 4 + b3 / 64)).symm
      have hw := (sextetToChar_ne_pad (b3 % 64)).symm
      have hne := encode_rstrip_ne_nil (b4 :: rest) (by simp)
      have ih := encode_no_pad (b4 :: rest)
      simp only [base64url_encode, b64EncodeChunks] at ih ⊢
      rw [rstripPad_cons4_append _ _ _ _ _ hne]
      simp only [List.mem_append, List.mem_cons, List.not_mem_nil]
      rintro ((hc | hc | hc | hc | hc) | hc)
      · exact hx hc
      · exact hy hc
      · exact hz hc
      · exact hw hc
      · exact hc
      · exact ih hc
  | [b1, b2, b3] => by
      have hxe := (sextetToChar_ne_pad (b1 / 4)).symm
      have hye := (sextetToChar_ne_pad (b1 % 4 * 16 + b2 / 16)).symm
      have hze := (sextetToChar_ne_pad (b2 % 16 * 4 + b3 / 64)).symm
      have hwe := (sextetToChar_ne_pad (b3 % 64)).symm
      have hw : (sextetToChar (b3 % 64) == '=') = false :=
        beq_eq_false_iff_ne.mpr (sextetToChar_ne_pad _)
      simp [base64url_encode, b64EncodeChunks, rstripPad, List.dropWhile,
        hw, hxe, hye, hze, hwe]

/-- C3: for every byte sequence (including the empty one and those whose
length is not a multiple of 3) decoding the encoding recovers the bytes;
the encoder output contains no `=` padding at all; and the decoder
re-pads its input with `=` to a multiple of 4 and decodes the padded
stream. -/
theorem base64url_roundtrip (bs : List Nat) (h : ∀ b ∈ bs, b < 256) :
    base64url_decode (base64url_encode bs) = some bs ∧
    '=' ∉ base64url_encode bs ∧
    (∀ s : Str, (∃ k, padTo4 s = s ++ List.replicate k '=') ∧
      (padTo4 s).length % 4 = 0 ∧
      base64url_decode s = b64DecodeChunks (padTo4 s)) := by
  refine ⟨?_, encode_no_pad bs, ?_⟩
  · unfold base64url_decode base64url_encode
    rw [show padTo4 (rstripPad (b64EncodeChunks bs)) = b64EncodeChunks bs from
      b64_pad_strip bs]
    exact b64_chunks_roundtrip bs h
  · intro s
    refine ⟨?_, ?_, rfl⟩
    · unfold padTo4
      by_cases h0 : s.length % 4 = 0
      · exact ⟨0, by simp [h0]⟩
      · exact ⟨4 - s.length % 4, by simp [h0]⟩
    · unfold padTo4
      by_cases h0 : s.length % 4 = 0
      · simp [h0]
      · simp only [h0, if_false, List.length_append, List.length_replicate]
        omega

/-- C3 witness: the four-byte sequence 0, 255, 7, 9, whose length is not
a multiple of 3. -/
theorem base64url_roundtrip_witness :
    base64url_decode (base64url_encode [0, 255, 7, 9]) = some [0, 255, 7, 9] ∧
    '=' ∉ base64url_encode [0, 255, 7, 9] :=
  ⟨(base64url_roundtrip [0, 255, 7, 9] (by decide)).1,
   (base64url_roundtrip [0, 255, 7, 9] (by decide)).2.1⟩

/-- C9 counterexample: the token e30.MTIz.sig has header bytes decoding
to an empty JSON object and payload bytes decoding to the JSON number
123, which is not a JSON object — yet the claim-decoding utility
returns it without any error instead of failing. -/
theorem decode_nonobject_counterexample :
    decode_token_no_verify "e30.MTIz.sig".toList =
      Except.ok ⟨JValue.jobj [], JValue.jint 123, "sig".toList⟩ ∧
    (∀ fields, JValue.jint 123 ≠ JValue.jobj fields) :=
  ⟨rfl, fun _ h => JValue.noConfusion h⟩

/-- C9 amended: for a token splitting into three segments, the utility
pads each segment to a multiple of 4 with `=` and decodes the padded
stream; a Base64 decoding failure and undecodable JSON each surface as
a distinct raised, message-carrying error; but a segment whose bytes
parse to a non-object JSON value is returned as-is without any
error. -/
theorem decode_token_failure_modes (token a b c : Str)
    (hsplit : splitDot token = [a, b, c]) :
    base64url_decode a = b64DecodeChunks (padTo4 a) ∧
    (∃ k, padTo4 a = a ++ List.replicate k '=') ∧
    (base64url_decode a = none →
      decode_token_no_verify token = Except.error DecErr.base64DecodeFailure) ∧
    (∀ hb, base64url_decode a = some hb → base64url_decode b = none →
      decode_token_no_verify token = Except.error DecErr.base64DecodeFailure) ∧
    (∀ hb pb, base64url_decode a = some hb → base64url_decode b = some pb →
      (parseJson hb = none ∨ parseJson pb = none) →
      decode_token_no_verify token = Except.error DecErr.invalidJson) ∧
    (∀ hb pb hv pv, base64url_decode a = some hb → base64url_decode b = some pb →
      parseJson hb = some hv → parseJson pb = some pv →
      decode_token_no_verify token = Except.ok ⟨hv, pv, c⟩) := by
  refine ⟨rfl, ?_, ?_, ?_, ?_, ?_⟩
  · unfold padTo4
    by_cases h0 : a.length % 4 = 0
    · exact ⟨0, by simp [h0]⟩
    · exact ⟨4 - a.length % 4, by simp [h0]⟩
  · intro hda
    simp [decode_token_no_verify, hsplit, hda]
  · intro hb hda hdb
    simp [decode_token_no_verify, hsplit, hda, hdb]
  · intro hb pb hda hdb hpj
    rcases hpj with hpj | hpj
    · simp [decode_token_no_verify, hsplit, hda, hdb, hpj]
    · rcases hqj : parseJson hb with _ | hv <;>
        simp [decode_token_no_verify, hsplit, hda, hdb, hpj, hqj]
  · intro hb pb hv pv hda hdb hpj hqj
    simp [decode_token_no_verify, hsplit, hda, hdb, hpj, hqj]

/-- C9 amended witness: the token e30.IQ.s — the header segment decodes
to an empty object, the payload segment decodes to byte 33, an
exclamation mark, which is not valid JSON, so the utility raises the
invalid-JSON error. -/
theorem decode_token_failure_modes_witness :
    decode_token_no_verify "e30.IQ.s".toList = Except.error DecErr.invalidJson :=
  (decode_token_failure_modes "e30.IQ.s".toList "e30".toList "IQ".toList ['s']
    (by decide)).2.2.2.2.1 [123, 125] [33] rfl rfl (Or.inr rfl)

/-- C10 counterexample: on the three-part input with header part a
followed by a newline, that part contains the newline, a character
outside the Base64URL alphabet, yet the lexer emits an ordinary HEADER
token for it (not an INVALID one) and records no diagnostic at all:
Python's dollar anchor accepts the trailing newline, so an offending
part does not always yield an INVALID token plus an error. -/
theorem lexer_newline_part_counterexample :
    (splitDot "a\n.b.c".toList).length = 3 ∧
    (splitDot "a\n.b.c".toList).getD 0 [] = ['a', '\n'] ∧
    '\n' ∉ ALPHABET ∧
    (tokenize "a\n.b.c".toList).1.getD 0 eofFallback =
      ⟨TokenType.HEADER, ['a', '\n'], 0⟩ ∧
    (tokenize "a\n.b.c".toList).2 = [] ∧
    (lexer_analyze "a\n.b.c".toList).success = true := by decide
